import Mathlib

/-!
Verification development for the registration-poc repository.

The definitions below are shallow embeddings of the TypeScript sources:
* `src/src/contexts/AuthContext.tsx` — `authReducer`, `login`, `register`,
  `logout`, the unlock-timer effect and `initializeAuth`;
* `src/src/utils/validation.ts` — `validateField`;
* the authentication service (`AuthenticationServiceImpl`) and the form
  persistence service (`FormPersistenceServiceImpl`);
* the debounced persistence effect of `src/src/hooks/useForm.ts`.

Instants are modelled as natural-number millisecond timestamps (`Date.now()`).
The durable key/value store is modelled as explicit state threaded through
each operation; storage is assumed reliable except where a claim is about
storage failure, in which case the failure is an explicit boolean input.
-/

/-- `User` record from `src/types` (part_000 lines 379-386). -/
structure User where
  id : String
  email : String
  firstName : String
  lastName : String
  phoneNumber : String
  createdAt : String
deriving DecidableEq

/-- `AuthState` from `src/types` (part_000 lines 388-395).
`lockoutUntil : number | null` becomes `Option Nat`. -/
structure AuthState where
  isAuthenticated : Bool
  user : Option User
  isLoading : Bool
  failedAttempts : Nat
  isLocked : Bool
  lockoutUntil : Option Nat
deriving DecidableEq

/-- `initialState` of `AuthContext.tsx` (lines 29-36). -/
def initialState : AuthState :=
  { isAuthenticated := false
    user := none
    isLoading := true
    failedAttempts := 0
    isLocked := false
    lockoutUntil := none }

/-- The `AuthAction` tagged union of `AuthContext.tsx` (lines 14-27). -/
inductive AuthAction where
  | loginStart
  | loginSuccess (u : User)
  | loginFailure
  | registerStart
  | registerSuccess (u : User)
  | registerFailure
  | logoutAction
  | setLoading (b : Bool)
  | incrementFailedAttempts
  | resetFailedAttempts
  | lockAccount (deadline : Nat)
  | unlockAccount
  | restoreSession (u : User)

/-- `authReducer` of `AuthContext.tsx` (lines 38-113).  `now` stands for the
`Date.now()` read in the `INCREMENT_FAILED_ATTEMPTS` branch (line 76);
`15 * 60 * 1000 = 900000` milliseconds. -/
def authReducer (now : Nat) (s : AuthState) (a : AuthAction) : AuthState :=
  match a with
  | .loginStart | .registerStart => { s with isLoading := true }
  | .loginSuccess u | .registerSuccess u =>
      { s with isAuthenticated := true
               user := some u
               isLoading := false
               failedAttempts := 0
               isLocked := false
               lockoutUntil := none }
  | .loginFailure | .registerFailure => { s with isLoading := false }
  | .logoutAction => { initialState with isLoading := false }
  | .setLoading b => { s with isLoading := b }
  | .incrementFailedAttempts =>
      let newFailedAttempts := s.failedAttempts + 1
      if newFailedAttempts ≥ 5 then
        { s with failedAttempts := newFailedAttempts
                 isLocked := true
                 lockoutUntil := some (now + 900000) }
      else
        { s with failedAttempts := newFailedAttempts
                 isLocked := false
                 lockoutUntil := none }
  | .resetFailedAttempts =>
      { s with failedAttempts := 0, isLocked := false, lockoutUntil := none }
  | .lockAccount deadline => { s with isLocked := true, lockoutUntil := some deadline }
  | .unlockAccount =>
      { s with isLocked := false, lockoutUntil := none, failedAttempts := 0 }
  | .restoreSession u =>
      { s with isAuthenticated := true, user := some u, isLoading := false }

/-- Typed failures surfaced by the authentication operations (§7 of the spec;
the thrown `Error` values of `AuthContext.tsx` and the services). -/
inductive AuthError where
  | lockedOut
  | invalidCredentials
  | duplicateEmail
  | storageFailure
deriving DecidableEq

/-- The `login` function of `AuthContext.tsx` (lines 153-176).  `outcome` is
the result of the awaited `authenticationService.login` together with the
credential store write: `.ok u` when both succeed, `.error e` when the try
block throws.  The function returns the dispatched-to state and the value the
promise settles with (the guard on line 154 throws before any dispatch). -/
def loginCtx (s : AuthState) (now : Nat) (outcome : Except AuthError User) :
    AuthState × Except AuthError Unit :=
  if s.isLocked then
    (s, .error .lockedOut)
  else
    let s1 := authReducer now s .loginStart
    match outcome with
    | .ok u =>
        let s2 := authReducer now s1 (.loginSuccess u)
        (authReducer now s2 .resetFailedAttempts, .ok ())
    | .error e =>
        let s2 := authReducer now s1 .loginFailure
        (authReducer now s2 .incrementFailedAttempts, .error e)

/-- The `register` function of `AuthContext.tsx` (lines 178-195): no lock
guard; dispatches `REGISTER_START`, then `REGISTER_SUCCESS` or
`REGISTER_FAILURE`, re-throwing the underlying error. -/
def registerCtx (s : AuthState) (now : Nat) (outcome : Except AuthError User) :
    AuthState × Except AuthError Unit :=
  let s1 := authReducer now s .registerStart
  match outcome with
  | .ok u => (authReducer now s1 (.registerSuccess u), .ok ())
  | .error e => (authReducer now s1 .registerFailure, .error e)

/-- The `logout` function of `AuthContext.tsx` (lines 197-206).
`storageFails` says whether `authenticationService.logout()` or
`secureStorageService.clearCredentials()` threw; both the try branch and the
catch branch dispatch `LOGOUT` and neither re-throws. -/
def logoutCtx (s : AuthState) (now : Nat) (storageFails : Bool) :
    AuthState × Except AuthError Unit :=
  if storageFails then
    (authReducer now s .logoutAction, .ok ())
  else
    (authReducer now s .logoutAction, .ok ())

/-- `initializeAuth` of `AuthContext.tsx` (lines 140-151): `currentUser` is
the (fail-open) result of `authenticationService.getCurrentUser()`. -/
def initializeAuth (s : AuthState) (now : Nat) (currentUser : Option User) : AuthState :=
  match currentUser with
  | some u => authReducer now s (.restoreSession u)
  | none => authReducer now s (.setLoading false)

/-- The unlock-timer effect of `AuthContext.tsx` (lines 128-138): scheduled
whenever `isLocked` and `lockoutUntil` are set, its callback dispatches
`UNLOCK_ACCOUNT` once `Date.now() ≥ lockoutUntil`. -/
def fireUnlockTimer (s : AuthState) (now : Nat) : AuthState :=
  match s.lockoutUntil with
  | some d => if s.isLocked ∧ d ≤ now then authReducer now s .unlockAccount else s
  | none => s

/-- The state after `n` failed attempts below the lockout threshold. -/
def failedState (s : AuthState) (n : Nat) : AuthState :=
  { s with isLoading := false, failedAttempts := n, isLocked := false, lockoutUntil := none }

/-- The state after the failed attempt (at time `t`) that reaches the lockout
threshold. -/
def lockedState (s : AuthState) (t : Nat) : AuthState :=
  { s with isLoading := false
           failedAttempts := 5
           isLocked := true
           lockoutUntil := some (t + 900000) }

/-- A concrete user value used by the closed witness theorems. -/
def demoUser : User :=
  { id := "user_0_demo"
    email := "a@b.com"
    firstName := "Jo"
    lastName := "Do"
    phoneNumber := "1234567890"
    createdAt := "0" }

/-! ### A string-keyed association list, the model of one `Record<string, _>`
object (or of one namespaced slice of AsyncStorage). -/

/-- Read a key (`obj[key]`, or `AsyncStorage.getItem`). -/
def getEntry {α : Type} (l : List (String × α)) (key : String) : Option α :=
  (l.find? (fun p => p.1 == key)).map Prod.snd

/-- Write a key (`obj[key] = v`, or `AsyncStorage.setItem`): replace the
binding in place when the key exists, append it otherwise. -/
def setEntry {α : Type} (l : List (String × α)) (key : String) (v : α) :
    List (String × α) :=
  if l.any (fun p => p.1 == key) then
    l.map (fun p => if p.1 == key then (p.1, v) else p)
  else
    l ++ [(key, v)]

/-- Delete a key (`delete obj[key]`, or `AsyncStorage.removeItem`). -/
def removeEntry {α : Type} (l : List (String × α)) (key : String) :
    List (String × α) :=
  l.filter (fun p => p.1 != key)

/-! ### `AuthenticationServiceImpl` (part_000 lines 181-365). -/

/-- `RegistrationFormData` from `src/types` (part_000 lines 365-372). -/
structure RegistrationFormData where
  email : String
  password : String
  confirmPassword : String
  firstName : String
  lastName : String
  phoneNumber : String
deriving DecidableEq

/-- The user table stored under `USERS_STORAGE_KEY`: a `Record<string, User>`
keyed by user id, in insertion order. -/
abbrev UserTable := List (String × User)

/-- `String.prototype.toLowerCase()`, modelled character-wise (ASCII case
folding; Lean's `String.toLower` is the same map but is not kernel-reducible,
so the map over the character list is used instead). -/
def lowerStr (s : String) : String :=
  String.mk (s.data.map Char.toLower)

/-- `users[newUser.id] = newUser` (part_000 line 229). -/
def putUser (users : UserTable) (u : User) : UserTable :=
  setEntry users u.id u

/-- `Object.values(users).find(u => u.email.toLowerCase() ===
email.toLowerCase())` (part_000 lines 210-212 and 247-249). -/
def findByEmail (users : UserTable) (email : String) : Option User :=
  (users.map Prod.snd).find? (fun u => lowerStr u.email == lowerStr email)

/-- `generateUserId` (part_000 lines 182-184):
`user_<Date.now()>_<Math.random().toString(36).substr(2, 9)>`; the random
suffix is an oracle input. -/
def generateUserId (now : Nat) (rand : String) : String :=
  "user_" ++ toString now ++ "_" ++ rand

/-- The `newUser` literal built by `register` (part_000 lines 219-226);
`nowIso` is the `new Date().toISOString()` string. -/
def freshUser (data : RegistrationFormData) (now : Nat) (rand nowIso : String) :
    User :=
  { id := generateUserId now rand
    email := lowerStr data.email
    firstName := data.firstName
    lastName := data.lastName
    phoneNumber := data.phoneNumber
    createdAt := nowIso }

/-- The slice of AsyncStorage owned by `AuthenticationServiceImpl`: the user
table (`USERS_STORAGE_KEY`) and the current session record
(`USER_STORAGE_KEY`). -/
structure SessionStore where
  users : UserTable
  currentUser : Option User
deriving DecidableEq

/-- `AuthenticationServiceImpl.register` (part_000 lines 205-240): duplicate
check by case-insensitive email (throwing before any write), fresh user
construction with lower-cased email, persist into the table, set as current
session user. -/
def serviceRegister (st : SessionStore) (data : RegistrationFormData)
    (now : Nat) (rand nowIso : String) :
    SessionStore × Except AuthError User :=
  match findByEmail st.users data.email with
  | some _ => (st, .error .duplicateEmail)
  | none =>
      let newUser := freshUser data now rand nowIso
      ({ users := putUser st.users newUser, currentUser := some newUser },
       .ok newUser)

/-- The register path end to end: `AuthContext.register` (lines 178-195)
invoked with the outcome of `AuthenticationServiceImpl.register`. -/
def registerFull (s : AuthState) (st : SessionStore)
    (data : RegistrationFormData) (now : Nat) (rand nowIso : String) :
    AuthState × SessionStore × Except AuthError Unit :=
  let r := serviceRegister st data now rand nowIso
  ((registerCtx s now r.2).1, r.1, (registerCtx s now r.2).2)

/-- The slice of AsyncStorage holding the failure counter
(`FAILED_ATTEMPTS_KEY`) and the lockout deadline (`@ClientPoc:LockoutUntil`),
with the stored strings parsed as numbers; `none` is an absent key. -/
structure LockoutStore where
  failedAttempts : Option Nat
  lockoutUntil : Option Nat
deriving DecidableEq

/-- `AuthenticationServiceImpl.resetFailedAttempts` (part_000 lines 305-312):
removes both keys. -/
def svcResetFailedAttempts (st : LockoutStore) : LockoutStore :=
  { failedAttempts := none, lockoutUntil := none }

/-- `AuthenticationServiceImpl.isAccountLocked` (part_000 lines 314-334): an
absent deadline means unlocked; otherwise locked iff `now < lockoutUntil`,
and an expired deadline is cleared (counter and deadline removed) as a side
effect of the read. -/
def isAccountLocked (st : LockoutStore) (now : Nat) : LockoutStore × Bool :=
  match st.lockoutUntil with
  | none => (st, false)
  | some d => if now < d then (st, true) else (svcResetFailedAttempts st, false)

/-! ### `FormPersistenceServiceImpl` (part_000 lines 6-88).  Records are keyed
by `formId`; the `@ClientPoc:FormData:` namespace key is carried implicitly
by every entry of this slice. -/

/-- One persisted record: the JSON `{ data, timestamp }` written by
`saveFormData` (part_000 lines 14-17). -/
structure SavedRecord where
  data : List (String × String)
  timestamp : Nat
deriving DecidableEq

/-- The form slice of AsyncStorage. -/
abbrev FormStore := List (String × SavedRecord)

/-- `FormPersistenceServiceImpl.saveFormData` (part_000 lines 11-23): wraps
the values with a capture timestamp and overwrites the record. -/
def saveFormData (st : FormStore) (formId : String)
    (d : List (String × String)) (now : Nat) : FormStore :=
  setEntry st formId { data := d, timestamp := now }

/-- `FormPersistenceServiceImpl.getFormData` (part_000 lines 25-49): absent
key gives `none`; a record older than 24 hours (`now - savedAt > 86400000`)
is deleted and `none` is returned; otherwise the data is returned and the
store untouched. -/
def getFormData (st : FormStore) (formId : String) (now : Nat) :
    FormStore × Option (List (String × String)) :=
  match getEntry st formId with
  | none => (st, none)
  | some r =>
      if now - r.timestamp > 86400000 then (removeEntry st formId, none)
      else (st, some r.data)

/-- `FormPersistenceServiceImpl.clearFormData` (part_000 lines 51-59). -/
def clearFormData (st : FormStore) (formId : String) : FormStore :=
  removeEntry st formId

/-- `FormPersistenceServiceImpl.getFormDataList` (part_000 lines 75-87):
lists the form ids, with the namespace key stripped; the store is not
modified. -/
def getFormDataList (st : FormStore) : List String :=
  st.map Prod.fst

/-! ### `validateField` (`src/src/utils/validation.ts` lines 47-96). -/

/-- `String.prototype.trim()`, modelled character-wise (Lean's `String.trim`
is the same function but is not kernel-reducible). -/
def jsTrim (s : String) : String :=
  String.mk (((s.data.dropWhile Char.isWhitespace).reverse.dropWhile
    Char.isWhitespace).reverse)

/-- `ValidationRule` from `src/types` (part_000 lines 397-404).  The absent
optional fields of the TS interface become `none` / `false`; `pattern` is the
`RegExp.test` predicate and `custom` the user predicate. -/
structure ValidationRule where
  required : Bool := false
  minLength : Option Nat := none
  maxLength : Option Nat := none
  pattern : Option (String → Bool) := none
  custom : Option (String → Bool) := none
  message : String

/-- `FieldError` from `src/types` (part_000 lines 406-409). -/
structure FieldError where
  type : String
  message : String
deriving DecidableEq

/-- `validateField` (validation.ts lines 47-96).  Guards follow the source's
JS truthiness: `value` is truthy iff non-empty, a `minLength`/`maxLength` of
`0` is falsy and skips its check, a present `pattern`/`custom` is always
truthy, and `confirmValue !== undefined` is `confirmValue.isSome`. -/
def validateField (value : String) (rule : ValidationRule)
    (confirmValue : Option String := none) : Option FieldError :=
  if rule.required && (value == "" || (jsTrim value).length == 0) then
    some { type := "required", message := rule.message }
  else if value != "" &&
      (match rule.minLength with
       | some n => n != 0 && value.length < n
       | none => false) then
    some { type := "minLength", message := rule.message }
  else if value != "" &&
      (match rule.maxLength with
       | some n => n != 0 && value.length > n
       | none => false) then
    some { type := "maxLength", message := rule.message }
  else if value != "" &&
      (match rule.pattern with
       | some p => !(p value)
       | none => false) then
    some { type := "pattern", message := rule.message }
  else if value != "" &&
      (match rule.custom with
       | some c => !(c value)
       | none => false) then
    some { type := "custom", message := rule.message }
  else if (match confirmValue with
           | some c => value != c
           | none => false) then
    some { type := "match", message := rule.message }
  else
    none

/-- A concrete rule (the `firstName` rule of validation.ts lines 26-31) used
by the closed witnesses. -/
def demoRule : ValidationRule :=
  { required := true, minLength := some 2, maxLength := some 50, message := "m" }

/-- The `confirmPassword` rule of validation.ts lines 21-24. -/
def confirmRule : ValidationRule :=
  { required := true, message := "Passwords must match" }

/-! ### The debounced persistence effect of `useForm.ts` (lines 47-55). -/

/-- The debounced autosave, run over a whole editing session.  The input is
the sequence of `formState.values` snapshots with the times at which the
persistence effect observed them (strictly increasing); the output is the
sequence of persisted writes with their times.  Each snapshot with a truthy
key-set schedules a write of itself 500 ms later; the effect cleanup at the
next snapshot cancels a timer that has not yet fired, i.e. one whose deadline
is after the next snapshot's time. -/
def debounceWrites : List (Nat × List (String × String)) →
    List (Nat × List (String × String))
  | [] => []
  | [(t, v)] => if v.isEmpty then [] else [(t + 500, v)]
  | (t, v) :: (t', v') :: rest =>
      if v.isEmpty then debounceWrites ((t', v') :: rest)
      else if t + 500 ≤ t' then (t + 500, v) :: debounceWrites ((t', v') :: rest)
      else debounceWrites ((t', v') :: rest)

/-! ### Reachability of the auth state machine. -/

/-- One user-visible operation of the state machine, with the oracle results
of the underlying services. -/
inductive AuthEvent where
  | loginAttempt (outcome : Except AuthError User)
  | registerAttempt (outcome : Except AuthError User)
  | logoutEvent (storageFails : Bool)
  | sessionRestore (currentUser : Option User)
  | loadingChange (b : Bool)

/-- Dispatching one operation at time `now`. -/
def applyEvent (now : Nat) (s : AuthState) : AuthEvent → AuthState
  | .loginAttempt oc => (loginCtx s now oc).1
  | .registerAttempt oc => (registerCtx s now oc).1
  | .logoutEvent fails => (logoutCtx s now fails).1
  | .sessionRestore cu => initializeAuth s now cu
  | .loadingChange b => authReducer now s (.setLoading b)

/-- The states reachable by the provider: the initial state, then operations
at nondecreasing times.  Under the single-threaded event loop the unlock
timer scheduled at `lockoutUntil` runs before any task enqueued after the
deadline, so each step first lets a due unlock timer fire
(`fireUnlockTimer`); a timer may also fire with no operation following. -/
inductive Reachable : AuthState → Nat → Prop
  | init (t : Nat) : Reachable initialState t
  | step {s : AuthState} {t : Nat} (t' : Nat) (e : AuthEvent) :
      Reachable s t → t ≤ t' →
      Reachable (applyEvent t' (fireUnlockTimer s t') e) t'
  | timer {s : AuthState} {t : Nat} (t' : Nat) :
      Reachable s t → t ≤ t' → Reachable (fireUnlockTimer s t') t'

/-- The inductive strengthening of the two claimed invariants: a locked state
carries a strictly-future deadline, an unlocked state carries no deadline,
and an authenticated state carries a user. -/
def StrongInv (s : AuthState) (t : Nat) : Prop :=
  (s.isLocked = true → ∃ d, s.lockoutUntil = some d ∧ t < d) ∧
  (s.isLocked = false → s.lockoutUntil = none) ∧
  (s.isAuthenticated = true → s.user.isSome = true)

/-! ### Concrete inputs for counterexamples and witnesses. -/

/-- A stored user whose id happens to collide with a later generated id. -/
def cexExistingUser : User :=
  { id := "user_7_abc"
    email := "x@a.com"
    firstName := "A"
    lastName := "B"
    phoneNumber := "1"
    createdAt := "0" }

/-- A session store already holding `cexExistingUser`. -/
def cexStore : SessionStore :=
  { users := [("user_7_abc", cexExistingUser)], currentUser := none }

/-- Registration data with an email unlike any stored one. -/
def cexData : RegistrationFormData :=
  { email := "Y@B.com"
    password := "Passw0rd!"
    confirmPassword := "Passw0rd!"
    firstName := "C"
    lastName := "D"
    phoneNumber := "2" }

/-- Registration data whose email case-insensitively matches
`cexExistingUser.email`. -/
def cexDupData : RegistrationFormData :=
  { email := "X@A.com"
    password := "Passw0rd!"
    confirmPassword := "Passw0rd!"
    firstName := "C"
    lastName := "D"
    phoneNumber := "2" }

/-- A form store with one record for form id `"f"` saved at time 0. -/
def demoFormStore : FormStore :=
  [("f", { data := [("a", "1")], timestamp := 0 })]

/-- A locked state whose deadline (100) is already past at time 200. -/
def lockedDemoState : AuthState :=
  { isAuthenticated := false
    user := none
    isLoading := false
    failedAttempts := 5
    isLocked := true
    lockoutUntil := some 100 }

/-! ## Theorems -/

/-- Overwriting an existing key of an association list stores the new value
under that key. -/
theorem getEntry_map_overwrite {α : Type} (key : String) (v : α) :
    ∀ l : List (String × α), l.any (fun p => p.1 == key) = true →
      getEntry (l.map (fun p => if p.1 == key then (p.1, v) else p)) key = some v := by
  intro l
  induction l with
  | nil => intro h; simp at h
  | cons q rest ih =>
      intro h
      unfold getEntry at ih ⊢
      rw [List.map_cons]
      by_cases hq : (q.1 == key) = true
      · rw [if_pos hq]
        have hf : List.find? (fun p : String × α => p.1 == key)
            ((q.1, v) :: List.map (fun p => if p.1 == key then (p.1, v) else p) rest)
            = some (q.1, v) := List.find?_cons_of_pos _ hq
        rw [hf]
        rfl
      · rw [if_neg hq]
        have hrest : rest.any (fun p => p.1 == key) = true := by
          simp only [List.any_cons, hq, Bool.false_or] at h
          exact h
        have hf : List.find? (fun p : String × α => p.1 == key)
            (q :: List.map (fun p => if p.1 == key then (p.1, v) else p) rest)
            = List.find? (fun p : String × α => p.1 == key)
              (List.map (fun p => if p.1 == key then (p.1, v) else p) rest) :=
          List.find?_cons_of_neg _ hq
        rw [hf]
        exact ih hrest

/-- A read of `key` after `setEntry l key v` yields `v`. -/
theorem getEntry_setEntry_self {α : Type} (l : List (String × α)) (key : String) (v : α) :
    getEntry (setEntry l key v) key = some v := by
  unfold setEntry
  by_cases h : l.any (fun p => p.1 == key) = true
  · rw [if_pos h]
    exact getEntry_map_overwrite key v l h
  · rw [if_neg h]
    have hnone : l.find? (fun p : String × α => p.1 == key) = none := by
      rw [List.find?_eq_none]
      intro x hx hpx
      exact h (List.any_eq_true.mpr ⟨x, hx, hpx⟩)
    unfold getEntry
    rw [List.find?_append, hnone, Option.none_or]
    have hf : List.find? (fun p : String × α => p.1 == key) [(key, v)] = some (key, v) :=
      List.find?_cons_of_pos _ (by simp)
    rw [hf]
    rfl

/-- `setEntry` leaves every other key untouched. -/
theorem getEntry_setEntry_ne {α : Type} (l : List (String × α)) (key k : String)
    (v : α) (hk : k ≠ key) :
    getEntry (setEntry l key v) k = getEntry l k := by
  unfold setEntry
  by_cases h : l.any (fun p => p.1 == key) = true
  · rw [if_pos h]
    clear h
    induction l with
    | nil => rfl
    | cons q rest ih =>
        unfold getEntry at ih ⊢
        rw [List.map_cons]
        by_cases hq2 : (q.1 == key) = true
        · have hqk : (q.1 == k) = false := by
            have hqs : q.1 = key := by simpa using hq2
            simp only [hqs, beq_eq_false_iff_ne, ne_eq]
            exact fun he => hk he.symm
          rw [if_pos hq2]
          have hf1 : List.find? (fun p : String × α => p.1 == k)
              ((q.1, v) :: List.map (fun p => if p.1 == key then (p.1, v) else p) rest)
              = List.find? (fun p : String × α => p.1 == k)
                (List.map (fun p => if p.1 == key then (p.1, v) else p) rest) :=
            List.find?_cons_of_neg _ (by simp [hqk])
          have hf2 : List.find? (fun p : String × α => p.1 == k) (q :: rest)
              = List.find? (fun p : String × α => p.1 == k) rest :=
            List.find?_cons_of_neg _ (by simp [hqk])
          rw [hf1, hf2]
          exact ih
        · rw [if_neg hq2]
          by_cases hq : (q.1 == k) = true
          · have hf1 : List.find? (fun p : String × α => p.1 == k)
                (q :: List.map (fun p => if p.1 == key then (p.1, v) else p) rest)
                = some q := List.find?_cons_of_pos _ hq
            have hf2 : List.find? (fun p : String × α => p.1 == k) (q :: rest) = some q :=
              List.find?_cons_of_pos _ hq
            rw [hf1, hf2]
          · have hf1 : List.find? (fun p : String × α => p.1 == k)
                (q :: List.map (fun p => if p.1 == key then (p.1, v) else p) rest)
                = List.find? (fun p : String × α => p.1 == k)
                  (List.map (fun p => if p.1 == key then (p.1, v) else p) rest) :=
              List.find?_cons_of_neg _ hq
            have hf2 : List.find? (fun p : String × α => p.1 == k) (q :: rest)
                = List.find? (fun p : String × α => p.1 == k) rest :=
              List.find?_cons_of_neg _ hq
            rw [hf1, hf2]
            exact ih
  · rw [if_neg h]
    have hkv : (((key, v)).1 == k) = false := by
      simp only [beq_eq_false_iff_ne, ne_eq]
      exact fun he => hk he.symm
    unfold getEntry
    rw [List.find?_append]
    have hf : List.find? (fun p : String × α => p.1 == k) [(key, v)] = none := by
      rw [List.find?_eq_none]
      intro x hx
      simp only [List.mem_singleton] at hx
      subst hx
      simp [hkv]
    rw [hf]
    simp

/-- A read of `key` after `removeEntry l key` is absent. -/
theorem getEntry_removeEntry_self {α : Type} (l : List (String × α)) (key : String) :
    getEntry (removeEntry l key) key = none := by
  unfold getEntry removeEntry
  rw [List.find?_eq_none.mpr]
  · rfl
  · intro x hx
    have hmem := (List.mem_filter.mp hx).2
    simp only [bne_iff_ne, ne_eq] at hmem
    simp [hmem]

/-- `removeEntry` leaves every other key untouched. -/
theorem getEntry_removeEntry_ne {α : Type} (l : List (String × α)) (key k : String)
    (hk : k ≠ key) :
    getEntry (removeEntry l key) k = getEntry l k := by
  induction l with
  | nil => rfl
  | cons q rest ih =>
      unfold getEntry removeEntry at ih ⊢
      rw [List.filter_cons]
      by_cases hq : (q.1 == k) = true
      · have hqk : q.1 = k := by simpa using hq
        have hbne : (q.1 != key) = true := by
          simp only [bne_iff_ne, ne_eq, hqk]
          exact hk
        rw [if_pos hbne]
        have hf1 : List.find? (fun p : String × α => p.1 == k)
            (q :: rest.filter (fun p => p.1 != key)) = some q :=
          List.find?_cons_of_pos _ hq
        have hf2 : List.find? (fun p : String × α => p.1 == k) (q :: rest) = some q :=
          List.find?_cons_of_pos _ hq
        rw [hf1, hf2]
      · have hf2 : List.find? (fun p : String × α => p.1 == k) (q :: rest)
            = List.find? (fun p : String × α => p.1 == k) rest :=
          List.find?_cons_of_neg _ hq
        by_cases hb : (q.1 != key) = true
        · rw [if_pos hb]
          have hf1 : List.find? (fun p : String × α => p.1 == k)
              (q :: rest.filter (fun p => p.1 != key))
              = List.find? (fun p : String × α => p.1 == k)
                (rest.filter (fun p => p.1 != key)) :=
            List.find?_cons_of_neg _ hq
          rw [hf1, hf2]
          exact ih
        · rw [if_neg hb, hf2]
          exact ih

/-- Deleting a key twice is the same as deleting it once. -/
theorem removeEntry_idem {α : Type} (l : List (String × α)) (key : String) :
    removeEntry (removeEntry l key) key = removeEntry l key := by
  unfold removeEntry
  rw [List.filter_filter]
  congr 1
  funext p
  exact Bool.and_self _

/-- Claim C5: for a record saved at `r.timestamp`, a `load` strictly more
than 24 hours (86400000 ms) later deletes the record and returns absent; a
`load` at or before 24 hours returns the saved data with the store untouched;
and `save` and `clear` touch no key other than their own argument (expiry is
never enforced by them). -/
theorem formData_ttl (st : FormStore) (formId k : String) (r : SavedRecord)
    (d : List (String × String)) (now t : Nat)
    (hr : getEntry st formId = some r) (hk : k ≠ formId) :
    (r.timestamp + 86400000 < now →
      getFormData st formId now = (removeEntry st formId, none)) ∧
    (now ≤ r.timestamp + 86400000 →
      getFormData st formId now = (st, some r.data)) ∧
    getEntry (saveFormData st formId d t) k = getEntry st k ∧
    getEntry (clearFormData st formId) k = getEntry st k := by
  refine ⟨?_, ?_, ?_, ?_⟩
  · intro h
    unfold getFormData
    rw [hr]
    dsimp only
    rw [if_pos (by omega)]
  · intro h
    unfold getFormData
    rw [hr]
    dsimp only
    rw [if_neg (by omega)]
  · exact getEntry_setEntry_ne st formId k _ hk
  · exact getEntry_removeEntry_ne st formId k hk

/-- Closed witness for `formData_ttl`: the boundary reads at `t0 + 24h + 1`
and `t0 + 24h`. -/
theorem formData_ttl_witness :
    getEntry demoFormStore "f" = some { data := [("a", "1")], timestamp := 0 } ∧
    "g" ≠ "f" ∧
    getFormData demoFormStore "f" 86400001 = (removeEntry demoFormStore "f", none) ∧
    getFormData demoFormStore "f" 86400000 = (demoFormStore, some [("a", "1")]) :=
  ⟨rfl, by decide,
    (formData_ttl demoFormStore "f" "g" { data := [("a", "1")], timestamp := 0 }
      [] 86400001 0 rfl (by decide)).1 (by norm_num),
    (formData_ttl demoFormStore "f" "g" { data := [("a", "1")], timestamp := 0 }
      [] 86400000 0 rfl (by decide)).2.1 (by norm_num)⟩

/-- Claim C9: `clear(formId)` is idempotent, and a `load(formId)` after
`clear(formId)` with no intervening save returns absent. -/
theorem clear_idempotent_load_absent (st : FormStore) (formId : String) (now : Nat) :
    clearFormData (clearFormData st formId) formId = clearFormData st formId ∧
    getFormData (clearFormData st formId) formId now =
      (clearFormData st formId, none) := by
  constructor
  · exact removeEntry_idem st formId
  · unfold getFormData clearFormData
    rw [getEntry_removeEntry_self]

/-- Claim C4 (amended): `register` fails with `DuplicateEmail` and leaves the
store untouched whenever a stored user's email matches case-insensitively;
otherwise it succeeds with a user whose email is the lower-cased input, whose
id is the generated `user_<now>_<rand>`, persists it under that id and sets
it as current session user — and the new id is distinct from every stored id
provided the generated id is not already a stored key (the code does not
check for such a collision; see `register_id_collision_cex`). -/
theorem register_spec (st : SessionStore) (data : RegistrationFormData)
    (now : Nat) (rand nowIso : String) :
    ((∃ u ∈ st.users.map Prod.snd, lowerStr u.email = lowerStr data.email) →
      serviceRegister st data now rand nowIso =
        (st, Except.error AuthError.duplicateEmail)) ∧
    ((∀ u ∈ st.users.map Prod.snd, lowerStr u.email ≠ lowerStr data.email) →
      serviceRegister st data now rand nowIso =
        ({ users := putUser st.users (freshUser data now rand nowIso)
           currentUser := some (freshUser data now rand nowIso) },
         Except.ok (freshUser data now rand nowIso)) ∧
      (freshUser data now rand nowIso).email = lowerStr data.email ∧
      getEntry (putUser st.users (freshUser data now rand nowIso))
        (freshUser data now rand nowIso).id = some (freshUser data now rand nowIso) ∧
      (generateUserId now rand ∉ st.users.map Prod.fst →
        ∀ i ∈ st.users.map Prod.fst, i ≠ (freshUser data now rand nowIso).id)) := by
  constructor
  · rintro ⟨u, hu, he⟩
    have hsome : (findByEmail st.users data.email).isSome = true := by
      unfold findByEmail
      rw [List.find?_isSome]
      exact ⟨u, hu, by simp [he]⟩
    obtain ⟨u', hu'⟩ := Option.isSome_iff_exists.mp hsome
    unfold serviceRegister
    rw [hu']
  · intro hall
    have hnone : findByEmail st.users data.email = none := by
      unfold findByEmail
      rw [List.find?_eq_none]
      intro x hx hpx
      exact hall x hx (by simpa using hpx)
    refine ⟨?_, rfl, ?_, ?_⟩
    · unfold serviceRegister
      rw [hnone]
    · exact getEntry_setEntry_self st.users (freshUser data now rand nowIso).id _
    · intro hfresh i hi heq
      rw [heq] at hi
      exact hfresh hi

/-- Counterexample for claim C4 as stated: with a stored user whose id is
`user_7_abc`, a registration at `now = 7` whose random suffix is `abc`
succeeds and returns a user whose id equals the stored user's id — it even
overwrites the stored user's table entry — so the new id is not distinct
from every existing id. -/
theorem register_id_collision_cex :
    (serviceRegister cexStore cexData 7 "abc" "iso").2 =
      Except.ok (freshUser cexData 7 "abc" "iso") ∧
    (freshUser cexData 7 "abc" "iso").id = cexExistingUser.id ∧
    cexStore.users.map Prod.fst = ["user_7_abc"] ∧
    (serviceRegister cexStore cexData 7 "abc" "iso").1.users.map Prod.fst =
      ["user_7_abc"] := by
  refine ⟨rfl, by decide, by decide, by decide⟩

/-- Closed witness for `register_spec`: the duplicate branch at a concrete
store. -/
theorem register_spec_witness :
    (∃ u ∈ cexStore.users.map Prod.snd,
       lowerStr u.email = lowerStr cexDupData.email) ∧
    serviceRegister cexStore cexDupData 9 "zzz" "iso" =
      (cexStore, Except.error AuthError.duplicateEmail) :=
  have hex : ∃ u ∈ cexStore.users.map Prod.snd,
      lowerStr u.email = lowerStr cexDupData.email :=
    ⟨cexExistingUser, by simp [cexStore], by decide⟩
  ⟨hex, (register_spec cexStore cexDupData 9 "zzz" "iso").1 hex⟩

/-- Claim C8 (amended): the service-level `isAccountLocked` read compares
`now` against a present `lockoutUntil`; at or past the deadline it reports
not-locked and clears the stored failure counter and deadline as a side
effect.  The lock check at the start of a login attempt, by contrast, reads
only the `isLocked` flag: on a locked state it reports locked whatever `now`
is, and clears nothing (see `login_guard_ignores_deadline_cex`). -/
theorem lock_read_lazy_expiry (stL : LockoutStore) (d now : Nat)
    (s : AuthState) (t : Nat) (oc : Except AuthError User)
    (hd : stL.lockoutUntil = some d) (hexp : d ≤ now) (hL : s.isLocked = true) :
    isAccountLocked stL now =
      ({ failedAttempts := none, lockoutUntil := none }, false) ∧
    loginCtx s t oc = (s, Except.error AuthError.lockedOut) := by
  constructor
  · unfold isAccountLocked
    rw [hd]
    dsimp only
    rw [if_neg (by omega)]
    rfl
  · simp only [loginCtx, hL, if_true]

/-- Closed witness for `lock_read_lazy_expiry`. -/
theorem lock_read_lazy_expiry_witness :
    ({ failedAttempts := some 5, lockoutUntil := some 100 } : LockoutStore).lockoutUntil
      = some 100 ∧
    (100 : Nat) ≤ 150 ∧ lockedDemoState.isLocked = true ∧
    isAccountLocked { failedAttempts := some 5, lockoutUntil := some 100 } 150 =
      ({ failedAttempts := none, lockoutUntil := none }, false) :=
  ⟨rfl, by norm_num, rfl,
    (lock_read_lazy_expiry { failedAttempts := some 5, lockoutUntil := some 100 }
      100 150 lockedDemoState 0 (Except.ok demoUser) rfl (by norm_num) rfl).1⟩

/-- Counterexample for claim C8 as stated: at a state whose deadline (100) is
already past at time 200, the login-attempt lock check still reports locked
(fails with `LockedOut`) and clears nothing — `failedAttempts` stays 5 and
`lockoutUntil` stays present — instead of comparing `now` against
`lockoutUntil`, reporting not-locked and clearing the lockout state. -/
theorem login_guard_ignores_deadline_cex :
    lockedDemoState.lockoutUntil = some 100 ∧ (100 : Nat) ≤ 200 ∧
    loginCtx lockedDemoState 200 (Except.ok demoUser) =
      (lockedDemoState, Except.error AuthError.lockedOut) ∧
    (loginCtx lockedDemoState 200 (Except.ok demoUser)).1.failedAttempts = 5 ∧
    (loginCtx lockedDemoState 200 (Except.ok demoUser)).1.lockoutUntil = some 100 :=
  ⟨rfl, by norm_num, rfl, rfl, rfl⟩

/-- Claim C10: the lockout restricts only login, not registration: on any
locked state the register path proceeds with no `LockedOut` guard and never
fails with `LockedOut`, and a successful registration while locked leaves an
authenticated state with `failedAttempts = 0`, `isLocked = false` and
`lockoutUntil` absent. -/
theorem register_no_lockout_guard (s : AuthState) (st : SessionStore)
    (data : RegistrationFormData) (now : Nat) (rand nowIso : String)
    (hL : s.isLocked = true) :
    (registerFull s st data now rand nowIso).2.2 ≠ Except.error AuthError.lockedOut ∧
    ((∀ u ∈ st.users.map Prod.snd, lowerStr u.email ≠ lowerStr data.email) →
      (registerFull s st data now rand nowIso).1 =
        { isAuthenticated := true
          user := some (freshUser data now rand nowIso)
          isLoading := false
          failedAttempts := 0
          isLocked := false
          lockoutUntil := none }) := by
  constructor
  · unfold registerFull serviceRegister
    cases hf : findByEmail st.users data.email with
    | none => simp [registerCtx]
    | some u => simp [registerCtx]
  · intro hall
    have hnone : findByEmail st.users data.email = none := by
      unfold findByEmail
      rw [List.find?_eq_none]
      intro x hx hpx
      exact hall x hx (by simpa using hpx)
    unfold registerFull serviceRegister
    rw [hnone]
    simp [registerCtx, authReducer]

/-- Closed witness for `register_no_lockout_guard` on a locked state with an
empty user table. -/
theorem register_no_lockout_guard_witness :
    lockedDemoState.isLocked = true ∧
    (registerFull lockedDemoState { users := [], currentUser := none }
        cexData 7 "abc" "iso").1 =
      { isAuthenticated := true
        user := some (freshUser cexData 7 "abc" "iso")
        isLoading := false
        failedAttempts := 0
        isLocked := false
        lockoutUntil := none } :=
  ⟨rfl,
    (register_no_lockout_guard lockedDemoState { users := [], currentUser := none }
      cexData 7 "abc" "iso" rfl).2 (by simp)⟩

/-- A failed login attempt on an unlocked state below the threshold: the
failure counter goes up by one and no lock is set. -/
theorem loginCtx_fail_below_threshold (s : AuthState) (t : Nat) (e : AuthError)
    (hL : s.isLocked = false) (h : s.failedAttempts + 1 < 5) :
    (loginCtx s t (Except.error e)).1 =
      { s with isLoading := false
               failedAttempts := s.failedAttempts + 1
               isLocked := false
               lockoutUntil := none } := by
  simp only [loginCtx, authReducer, hL, Bool.false_eq_true, if_false, if_neg (Nat.not_le.mpr h)]

/-- A failed login attempt on an unlocked state at the threshold: the fifth
failure locks the account until `t + 900000`. -/
theorem loginCtx_fail_at_threshold (s : AuthState) (t : Nat) (e : AuthError)
    (hL : s.isLocked = false) (h : s.failedAttempts = 4) :
    (loginCtx s t (Except.error e)).1 =
      { s with isLoading := false
               failedAttempts := 5
               isLocked := true
               lockoutUntil := some (t + 900000) } := by
  simp only [loginCtx, authReducer, hL, Bool.false_eq_true, if_false, h]
  norm_num

/-- A login attempt on a locked state short-circuits: the state is untouched
and the caller gets `LockedOut`, whatever the underlying service would say. -/
theorem loginCtx_locked (s : AuthState) (t : Nat) (oc : Except AuthError User)
    (hL : s.isLocked = true) :
    loginCtx s t oc = (s, Except.error AuthError.lockedOut) := by
  simp only [loginCtx, hL, if_true]

/-- A successful login resets the lockout bookkeeping. -/
theorem loginCtx_success (s : AuthState) (t : Nat) (u : User)
    (hL : s.isLocked = false) :
    (loginCtx s t (Except.ok u)).1 =
      { s with isAuthenticated := true
               user := some u
               isLoading := false
               failedAttempts := 0
               isLocked := false
               lockoutUntil := none } := by
  simp only [loginCtx, authReducer, hL, Bool.false_eq_true, if_false]

/-- Claim C1: starting from an unlocked `AuthState` with `failedAttempts = 0`,
each of five consecutive failed `login` calls increments `failedAttempts` by
one; the fifth sets `isLocked = true` and `lockoutUntil = now + 15` minutes; a
sixth attempt before that deadline fails with `LockedOut` and leaves
`failedAttempts` at 5; and any successful login on an unlocked state resets
`failedAttempts` to 0, `isLocked` to false and `lockoutUntil` to absent. -/
theorem lockout_lifecycle (s s' : AuthState) (t1 t2 t3 t4 t5 t6 t7 : Nat)
    (e1 e2 e3 e4 e5 : AuthError) (oc : Except AuthError User) (u : User)
    (hL : s.isLocked = false) (h0 : s.failedAttempts = 0)
    (ht6 : t6 < t5 + 900000) (hL' : s'.isLocked = false) :
    (((loginCtx s t1 (Except.error e1)).1.failedAttempts = 1 ∧
      (loginCtx s t1 (Except.error e1)).1.isLocked = false) ∧
     ((loginCtx (loginCtx s t1 (Except.error e1)).1 t2 (Except.error e2)).1.failedAttempts = 2 ∧
      (loginCtx (loginCtx s t1 (Except.error e1)).1 t2 (Except.error e2)).1.isLocked = false) ∧
     ((loginCtx (loginCtx (loginCtx s t1 (Except.error e1)).1 t2 (Except.error e2)).1 t3
        (Except.error e3)).1.failedAttempts = 3 ∧
      (loginCtx (loginCtx (loginCtx s t1 (Except.error e1)).1 t2 (Except.error e2)).1 t3
        (Except.error e3)).1.isLocked = false) ∧
     ((loginCtx (loginCtx (loginCtx (loginCtx s t1 (Except.error e1)).1 t2 (Except.error e2)).1 t3
        (Except.error e3)).1 t4 (Except.error e4)).1.failedAttempts = 4 ∧
      (loginCtx (loginCtx (loginCtx (loginCtx s t1 (Except.error e1)).1 t2 (Except.error e2)).1 t3
        (Except.error e3)).1 t4 (Except.error e4)).1.isLocked = false) ∧
     ((loginCtx (loginCtx (loginCtx (loginCtx (loginCtx s t1 (Except.error e1)).1 t2
        (Except.error e2)).1 t3 (Except.error e3)).1 t4 (Except.error e4)).1 t5
        (Except.error e5)).1.failedAttempts = 5 ∧
      (loginCtx (loginCtx (loginCtx (loginCtx (loginCtx s t1 (Except.error e1)).1 t2
        (Except.error e2)).1 t3 (Except.error e3)).1 t4 (Except.error e4)).1 t5
        (Except.error e5)).1.isLocked = true ∧
      (loginCtx (loginCtx (loginCtx (loginCtx (loginCtx s t1 (Except.error e1)).1 t2
        (Except.error e2)).1 t3 (Except.error e3)).1 t4 (Except.error e4)).1 t5
        (Except.error e5)).1.lockoutUntil = some (t5 + 900000)) ∧
     (loginCtx (loginCtx (loginCtx (loginCtx (loginCtx (loginCtx s t1 (Except.error e1)).1 t2
        (Except.error e2)).1 t3 (Except.error e3)).1 t4 (Except.error e4)).1 t5
        (Except.error e5)).1 t6 oc =
       ((loginCtx (loginCtx (loginCtx (loginCtx (loginCtx s t1 (Except.error e1)).1 t2
          (Except.error e2)).1 t3 (Except.error e3)).1 t4 (Except.error e4)).1 t5
          (Except.error e5)).1, Except.error AuthError.lockedOut))) ∧
    ((loginCtx s' t7 (Except.ok u)).1.failedAttempts = 0 ∧
     (loginCtx s' t7 (Except.ok u)).1.isLocked = false ∧
     (loginCtx s' t7 (Except.ok u)).1.lockoutUntil = none) := by
  have h1 : (loginCtx s t1 (Except.error e1)).1 = failedState s 1 := by
    rw [loginCtx_fail_below_threshold s t1 e1 hL (by omega)]
    simp [failedState, h0]
  rw [h1]
  have h2 : (loginCtx (failedState s 1) t2 (Except.error e2)).1 = failedState s 2 := by
    rw [loginCtx_fail_below_threshold (failedState s 1) t2 e2 rfl (by simp [failedState])]
    simp [failedState]
  rw [h2]
  have h3 : (loginCtx (failedState s 2) t3 (Except.error e3)).1 = failedState s 3 := by
    rw [loginCtx_fail_below_threshold (failedState s 2) t3 e3 rfl (by simp [failedState])]
    simp [failedState]
  rw [h3]
  have h4 : (loginCtx (failedState s 3) t4 (Except.error e4)).1 = failedState s 4 := by
    rw [loginCtx_fail_below_threshold (failedState s 3) t4 e4 rfl (by simp [failedState])]
    simp [failedState]
  rw [h4]
  have h5 : (loginCtx (failedState s 4) t5 (Except.error e5)).1 = lockedState s t5 := by
    rw [loginCtx_fail_at_threshold (failedState s 4) t5 e5 rfl (by simp [failedState])]
    simp [failedState, lockedState]
  rw [h5]
  refine ⟨⟨⟨rfl, rfl⟩, ⟨rfl, rfl⟩, ⟨rfl, rfl⟩, ⟨rfl, rfl⟩, ⟨rfl, rfl, rfl⟩, ?_⟩, ?_⟩
  · exact loginCtx_locked (lockedState s t5) t6 oc rfl
  · rw [loginCtx_success s' t7 u hL']
    exact ⟨rfl, rfl, rfl⟩

/-- Closed witness for `lockout_lifecycle` at a concrete run. -/
theorem lockout_lifecycle_witness :
    initialState.isLocked = false ∧ initialState.failedAttempts = 0 ∧
    (6 : Nat) < 5 + 900000 ∧
    ((loginCtx initialState 7 (Except.ok demoUser)).1.failedAttempts = 0 ∧
     (loginCtx initialState 7 (Except.ok demoUser)).1.isLocked = false ∧
     (loginCtx initialState 7 (Except.ok demoUser)).1.lockoutUntil = none) :=
  ⟨rfl, rfl, by norm_num,
    (lockout_lifecycle initialState initialState 1 2 3 4 5 6 7
      AuthError.invalidCredentials AuthError.invalidCredentials
      AuthError.invalidCredentials AuthError.invalidCredentials
      AuthError.invalidCredentials (Except.ok demoUser) demoUser
      rfl rfl (by norm_num) rfl).2⟩

/-- Claim C7: logout never fails its caller: for every prior state and every
outcome of the underlying storage calls it resolves with `.ok` and the state
becomes fully unauthenticated and unlocked. -/
theorem logout_always_succeeds (s : AuthState) (now : Nat) (storageFails : Bool) :
    logoutCtx s now storageFails =
      ({ isAuthenticated := false
         user := none
         isLoading := false
         failedAttempts := 0
         isLocked := false
         lockoutUntil := none }, Except.ok ()) := by
  cases storageFails <;> rfl

/-- The required-check condition of `validateField`, as a proposition: the
check fails exactly when the rule demands `required` and the value is empty
or whitespace-only (`value == ""` implies `jsTrim value = ""`). -/
theorem validateField_cond1_iff (v : String) (r : ValidationRule) :
    (r.required && ((v == "") || ((jsTrim v).length == 0))) = true ↔
      (r.required = true ∧ (jsTrim v).length = 0) := by
  constructor
  · intro h
    simp only [Bool.and_eq_true, Bool.or_eq_true, beq_iff_eq] at h
    obtain ⟨hr, hor⟩ := h
    refine ⟨hr, ?_⟩
    rcases hor with he | hl
    · rw [he]
      rfl
    · exact hl
  · rintro ⟨hr, hl⟩
    simp [hr, hl]

/-- The minLength-check condition of `validateField`, as a proposition. -/
theorem validateField_cond2_iff (v : String) (r : ValidationRule) :
    (v != "" && (match r.minLength with
       | some n => n != 0 && v.length < n
       | none => false)) = true ↔
      (v ≠ "" ∧ ∃ n, r.minLength = some n ∧ n ≠ 0 ∧ v.length < n) := by
  cases hm : r.minLength with
  | none => simp [hm]
  | some n => simp [hm, and_assoc]

/-- The maxLength-check condition of `validateField`, as a proposition. -/
theorem validateField_cond3_iff (v : String) (r : ValidationRule) :
    (v != "" && (match r.maxLength with
       | some n => n != 0 && v.length > n
       | none => false)) = true ↔
      (v ≠ "" ∧ ∃ n, r.maxLength = some n ∧ n ≠ 0 ∧ v.length > n) := by
  cases hm : r.maxLength with
  | none => simp [hm]
  | some n => simp [hm, and_assoc]

/-- The pattern-check condition of `validateField`, as a proposition. -/
theorem validateField_cond4_iff (v : String) (r : ValidationRule) :
    (v != "" && (match r.pattern with
       | some p => !(p v)
       | none => false)) = true ↔
      (v ≠ "" ∧ ∃ p, r.pattern = some p ∧ p v = false) := by
  cases hp : r.pattern with
  | none => simp [hp]
  | some p => simp [hp]

/-- The custom-check condition of `validateField`, as a proposition. -/
theorem validateField_cond5_iff (v : String) (r : ValidationRule) :
    (v != "" && (match r.custom with
       | some c => !(c v)
       | none => false)) = true ↔
      (v ≠ "" ∧ ∃ f, r.custom = some f ∧ f v = false) := by
  cases hc : r.custom with
  | none => simp [hc]
  | some f => simp [hc]

/-- `validateField` with a confirm value runs the same five checks first and
falls through to the match check only when all of them pass. -/
theorem validateField_confirm_split (v : String) (r : ValidationRule) (c : String) :
    validateField v r (some c) =
      match validateField v r none with
      | some e => some e
      | none =>
          if v = c then none
          else some { type := "match", message := r.message } := by
  unfold validateField
  by_cases h1 : (r.required && ((v == "") || ((jsTrim v).length == 0))) = true
  · simp only [h1, if_true]
  · simp only [h1, if_false, Bool.false_eq_true]
    by_cases h2 : (v != "" && (match r.minLength with
        | some n => n != 0 && v.length < n
        | none => false)) = true
    · simp only [h2, if_true]
    · simp only [h2, if_false, Bool.false_eq_true]
      by_cases h3 : (v != "" && (match r.maxLength with
          | some n => n != 0 && v.length > n
          | none => false)) = true
      · simp only [h3, if_true]
      · simp only [h3, if_false, Bool.false_eq_true]
        by_cases h4 : (v != "" && (match r.pattern with
            | some p => !(p v)
            | none => false)) = true
        · simp only [h4, if_true]
        · simp only [h4, if_false, Bool.false_eq_true]
          by_cases h5 : (v != "" && (match r.custom with
              | some f => !(f v)
              | none => false)) = true
          · simp only [h5, if_true]
          · simp only [h5, if_false, Bool.false_eq_true]
            by_cases hc : v = c
            · simp [hc]
            · simp [hc, bne_iff_ne]

/-- Without a confirm value an empty value yields either no error or the
required error. -/
theorem validateField_empty_none (r : ValidationRule) :
    validateField "" r none = none ∨
    validateField "" r none = some { type := "required", message := r.message } := by
  by_cases hr : r.required = true
  · right
    simp [validateField, hr]
  · left
    have hr' : r.required = false := by simpa using hr
    simp [validateField, hr']

/-- Without a confirm value `validateField` never produces a match error. -/
theorem validateField_none_no_match (v : String) (r : ValidationRule) :
    ∀ e, validateField v r none = some e → e.type ≠ "match" := by
  intro e h
  unfold validateField at h
  repeat' split at h
  all_goals (try (cases h))
  all_goals simp_all

/-- Claim C2: `validateField` returns at most one error (its result is an
`Option`), chosen by a fixed first-match-wins order.  The conjuncts state:
the required error is returned, for any confirm value, exactly when the rule
demands `required` and the value is empty or whitespace-only; an empty value
admits no minLength/maxLength/pattern/custom error; no confirm value means no
match error; any error of the first five checks wins over the match check;
when all five pass, a match error is reported iff a confirm value is supplied
and differs — i.e. a mismatched confirmation is reported only when the field
is otherwise individually valid; and each of the minLength, maxLength,
pattern and custom checks fires (for any confirm value) only when the value
is non-empty and every earlier check passes, in that order. -/
theorem validateField_order (v : String) (r : ValidationRule) (c : String) :
    (∀ cv : Option String,
       validateField v r cv = some { type := "required", message := r.message } ↔
         (r.required = true ∧ (jsTrim v).length = 0)) ∧
    (v = "" → ∀ e, validateField v r (some c) = some e →
       e.type = "required" ∨ e.type = "match") ∧
    (∀ e, validateField v r none = some e → e.type ≠ "match") ∧
    (∀ e, validateField v r none = some e → validateField v r (some c) = some e) ∧
    (validateField v r none = none →
       validateField v r (some c) =
         if v = c then none else some { type := "match", message := r.message }) ∧
    (¬(r.required = true ∧ (jsTrim v).length = 0) → v ≠ "" →
       (∃ n, r.minLength = some n ∧ n ≠ 0 ∧ v.length < n) →
       ∀ cv, validateField v r cv = some { type := "minLength", message := r.message }) ∧
    (¬(r.required = true ∧ (jsTrim v).length = 0) → v ≠ "" →
       (∀ n, r.minLength = some n → n = 0 ∨ ¬v.length < n) →
       (∃ n, r.maxLength = some n ∧ n ≠ 0 ∧ v.length > n) →
       ∀ cv, validateField v r cv = some { type := "maxLength", message := r.message }) ∧
    (¬(r.required = true ∧ (jsTrim v).length = 0) → v ≠ "" →
       (∀ n, r.minLength = some n → n = 0 ∨ ¬v.length < n) →
       (∀ n, r.maxLength = some n → n = 0 ∨ ¬v.length > n) →
       (∃ p, r.pattern = some p ∧ p v = false) →
       ∀ cv, validateField v r cv = some { type := "pattern", message := r.message }) ∧
    (¬(r.required = true ∧ (jsTrim v).length = 0) → v ≠ "" →
       (∀ n, r.minLength = some n → n = 0 ∨ ¬v.length < n) →
       (∀ n, r.maxLength = some n → n = 0 ∨ ¬v.length > n) →
       (∀ p, r.pattern = some p → p v = true) →
       (∃ f, r.custom = some f ∧ f v = false) →
       ∀ cv, validateField v r cv = some { type := "custom", message := r.message }) := by
  refine ⟨?_, ?_, validateField_none_no_match v r, ?_, ?_, ?_, ?_, ?_, ?_⟩
  · intro cv
    constructor
    · intro h
      by_cases hb : (r.required && ((v == "") || ((jsTrim v).length == 0))) = true
      · exact (validateField_cond1_iff v r).mp hb
      · exfalso
        unfold validateField at h
        rw [if_neg hb] at h
        repeat' split at h
        all_goals simp_all
    · intro hcond
      have hb := (validateField_cond1_iff v r).mpr hcond
      unfold validateField
      rw [if_pos hb]
  · intro hv e h
    subst hv
    rcases validateField_empty_none r with hn | hreq
    · rw [validateField_confirm_split "" r c, hn] at h
      by_cases hc : ("" : String) = c
      · simp [hc] at h
      · simp only [if_neg hc] at h
        have he : e = { type := "match", message := r.message } := by
          simpa using h.symm
        right
        rw [he]
    · rw [validateField_confirm_split "" r c, hreq] at h
      have he : e = { type := "required", message := r.message } := by
        simpa using h.symm
      left
      rw [he]
  · intro e h
    rw [validateField_confirm_split v r c, h]
  · intro h
    rw [validateField_confirm_split v r c, h]
  · intro hreq hv hmin cv
    have hb1 : ¬(r.required && ((v == "") || ((jsTrim v).length == 0))) = true :=
      fun hb => hreq ((validateField_cond1_iff v r).mp hb)
    have hb2 : (v != "" && (match r.minLength with
        | some n => n != 0 && v.length < n
        | none => false)) = true :=
      (validateField_cond2_iff v r).mpr ⟨hv, hmin⟩
    unfold validateField
    rw [if_neg hb1, if_pos hb2]
  · intro hreq hv hmin hmax cv
    have hb1 : ¬(r.required && ((v == "") || ((jsTrim v).length == 0))) = true :=
      fun hb => hreq ((validateField_cond1_iff v r).mp hb)
    have hb2 : ¬(v != "" && (match r.minLength with
        | some n => n != 0 && v.length < n
        | none => false)) = true := by
      intro hb
      obtain ⟨_, n, hn, hn0, hlt⟩ := (validateField_cond2_iff v r).mp hb
      rcases hmin n hn with h0 | hge
      · exact hn0 h0
      · exact hge hlt
    have hb3 : (v != "" && (match r.maxLength with
        | some n => n != 0 && v.length > n
        | none => false)) = true :=
      (validateField_cond3_iff v r).mpr ⟨hv, hmax⟩
    unfold validateField
    rw [if_neg hb1, if_neg hb2, if_pos hb3]
  · intro hreq hv hmin hmax hpat cv
    have hb1 : ¬(r.required && ((v == "") || ((jsTrim v).length == 0))) = true :=
      fun hb => hreq ((validateField_cond1_iff v r).mp hb)
    have hb2 : ¬(v != "" && (match r.minLength with
        | some n => n != 0 && v.length < n
        | none => false)) = true := by
      intro hb
      obtain ⟨_, n, hn, hn0, hlt⟩ := (validateField_cond2_iff v r).mp hb
      rcases hmin n hn with h0 | hge
      · exact hn0 h0
      · exact hge hlt
    have hb3 : ¬(v != "" && (match r.maxLength with
        | some n => n != 0 && v.length > n
        | none => false)) = true := by
      intro hb
      obtain ⟨_, n, hn, hn0, hgt⟩ := (validateField_cond3_iff v r).mp hb
      rcases hmax n hn with h0 | hle
      · exact hn0 h0
      · exact hle hgt
    have hb4 : (v != "" && (match r.pattern with
        | some p => !(p v)
        | none => false)) = true :=
      (validateField_cond4_iff v r).mpr ⟨hv, hpat⟩
    unfold validateField
    rw [if_neg hb1, if_neg hb2, if_neg hb3, if_pos hb4]
  · intro hreq hv hmin hmax hpat hcust cv
    have hb1 : ¬(r.required && ((v == "") || ((jsTrim v).length == 0))) = true :=
      fun hb => hreq ((validateField_cond1_iff v r).mp hb)
    have hb2 : ¬(v != "" && (match r.minLength with
        | some n => n != 0 && v.length < n
        | none => false)) = true := by
      intro hb
      obtain ⟨_, n, hn, hn0, hlt⟩ := (validateField_cond2_iff v r).mp hb
      rcases hmin n hn with h0 | hge
      · exact hn0 h0
      · exact hge hlt
    have hb3 : ¬(v != "" && (match r.maxLength with
        | some n => n != 0 && v.length > n
        | none => false)) = true := by
      intro hb
      obtain ⟨_, n, hn, hn0, hgt⟩ := (validateField_cond3_iff v r).mp hb
      rcases hmax n hn with h0 | hle
      · exact hn0 h0
      · exact hle hgt
    have hb4 : ¬(v != "" && (match r.pattern with
        | some p => !(p v)
        | none => false)) = true := by
      intro hb
      obtain ⟨_, p, hp, hfalse⟩ := (validateField_cond4_iff v r).mp hb
      rw [hpat p hp] at hfalse
      cases hfalse
    have hb5 : (v != "" && (match r.custom with
        | some f => !(f v)
        | none => false)) = true :=
      (validateField_cond5_iff v r).mpr ⟨hv, hcust⟩
    unfold validateField
    rw [if_neg hb1, if_neg hb2, if_neg hb3, if_neg hb4, if_pos hb5]

/-- Closed witness for `validateField_order`: the §8 confirmation scenario —
`validateField "abc"` with confirm value `"abd"` yields the match error
because `"abc"` passes the rule's own checks — and the minLength slot at a
concrete length-violating value. -/
theorem validateField_order_witness :
    validateField "abc" confirmRule none = none ∧
    validateField "abc" confirmRule (some "abd") =
      some { type := "match", message := "Passwords must match" } ∧
    validateField "a" demoRule none =
      some { type := "minLength", message := "m" } := by
  have hnone : validateField "abc" confirmRule none = none := by decide
  refine ⟨hnone, ?_, ?_⟩
  · rw [(validateField_order "abc" confirmRule "abd").2.2.2.2.1 hnone]
    decide
  · exact (validateField_order "a" demoRule "x").2.2.2.2.2.1
      (by decide) (by decide) ⟨2, rfl, by decide, by decide⟩ none

/-- Every write produced from a time-sorted change sequence starting at time
`t` happens at `t + 500` or later. -/
theorem debounceWrites_time_lower (cs : List (Nat × List (String × String))) :
    ∀ t v, List.Chain' (fun a b => a.1 ≤ b.1) ((t, v) :: cs) →
      ∀ w ∈ debounceWrites ((t, v) :: cs), t + 500 ≤ w.1 := by
  induction cs with
  | nil =>
      intro t v _ w hw
      unfold debounceWrites at hw
      by_cases hv : v.isEmpty = true
      · simp [hv] at hw
      · simp only [hv, Bool.false_eq_true, if_false, List.mem_singleton] at hw
        rw [hw]
  | cons q rest ih =>
      intro t v hch w hw
      obtain ⟨t', v'⟩ := q
      have hle : t ≤ t' := (List.chain'_cons.mp hch).1
      have hch' : List.Chain' (fun a b => a.1 ≤ b.1) ((t', v') :: rest) :=
        (List.chain'_cons.mp hch).2
      unfold debounceWrites at hw
      by_cases hv : v.isEmpty = true
      · simp only [hv, if_true] at hw
        have := ih t' v' hch' w hw
        omega
      · by_cases hd : t + 500 ≤ t'
        · simp only [hv, Bool.false_eq_true, if_false, if_pos hd, List.mem_cons] at hw
          rcases hw with hw | hw
          · rw [hw]
          · have := ih t' v' hch' w hw
            omega
        · simp only [hv, Bool.false_eq_true, if_false, if_neg hd] at hw
          have := ih t' v' hch' w hw
          omega

/-- For a time-sorted change sequence, consecutive persisted writes are at
least 500 ms apart. -/
theorem debounceWrites_spacing (cs : List (Nat × List (String × String))) :
    List.Chain' (fun a b => a.1 ≤ b.1) cs →
    List.Chain' (fun a b => a.1 + 500 ≤ b.1) (debounceWrites cs) := by
  induction cs with
  | nil => intro _; simp [debounceWrites]
  | cons q rest ih =>
      obtain ⟨t, v⟩ := q
      cases rest with
      | nil =>
          intro _
          unfold debounceWrites
          by_cases hv : v.isEmpty = true <;> simp [hv]
      | cons q' rest' =>
          obtain ⟨t', v'⟩ := q'
          intro hch
          have hle : t ≤ t' := (List.chain'_cons.mp hch).1
          have hch' : List.Chain' (fun a b => a.1 ≤ b.1) ((t', v') :: rest') :=
            (List.chain'_cons.mp hch).2
          unfold debounceWrites
          by_cases hv : v.isEmpty = true
          · simp only [hv, if_true]
            exact ih hch'
          · by_cases hd : t + 500 ≤ t'
            · simp only [hv, Bool.false_eq_true, if_false, if_pos hd]
              refine List.chain'_cons'.mpr ⟨?_, ih hch'⟩
              intro b hb
              have hmem : b ∈ debounceWrites ((t', v') :: rest') :=
                List.mem_of_mem_head? hb
              have := debounceWrites_time_lower rest' t' v' hch' b hmem
              simp only
              omega
            · simp only [hv, Bool.false_eq_true, if_false, if_neg hd]
              exact ih hch'

/-- When every change arrives within 500 ms of the previous one, all pending
writes but the last are cancelled: exactly one write remains, at the last
change's time plus 500 ms, holding the last change's values. -/
theorem debounceWrites_burst :
    ∀ (cs : List (Nat × List (String × String))) (t tl : Nat)
      (v vl : List (String × String)),
      ((t, v) :: cs).getLast? = some (tl, vl) →
      List.Chain' (fun a b => b.1 < a.1 + 500) ((t, v) :: cs) →
      vl.isEmpty = false →
      debounceWrites ((t, v) :: cs) = [(tl + 500, vl)]
  | [], t, tl, v, vl, hlast, _, hne => by
      simp only [List.getLast?_singleton, Option.some.injEq, Prod.mk.injEq] at hlast
      obtain ⟨h1, h2⟩ := hlast
      subst h1
      subst h2
      unfold debounceWrites
      rw [hne]
      simp
  | (t', v') :: rest, t, tl, v, vl, hlast, hch, hne => by
      have hlt : t' < t + 500 := (List.chain'_cons.mp hch).1
      have hch' : List.Chain' (fun a b => b.1 < a.1 + 500) ((t', v') :: rest) :=
        (List.chain'_cons.mp hch).2
      have hlast' : ((t', v') :: rest).getLast? = some (tl, vl) := by
        rw [← hlast, List.getLast?_cons_cons]
      have htail := debounceWrites_burst rest t' tl v' vl hlast' hch' hne
      unfold debounceWrites
      by_cases hv : v.isEmpty = true
      · rw [if_pos hv]
        exact htail
      · rw [if_neg hv, if_neg (by omega)]
        exact htail

/-- Whatever the cancellation pattern, the final write after edits stop is at
the last change's time plus 500 ms and holds the last change's values. -/
theorem debounceWrites_last :
    ∀ (cs : List (Nat × List (String × String))) (t tl : Nat)
      (v vl : List (String × String)),
      ((t, v) :: cs).getLast? = some (tl, vl) →
      vl.isEmpty = false →
      (debounceWrites ((t, v) :: cs)).getLast? = some (tl + 500, vl)
  | [], t, tl, v, vl, hlast, hne => by
      simp only [List.getLast?_singleton, Option.some.injEq, Prod.mk.injEq] at hlast
      obtain ⟨h1, h2⟩ := hlast
      subst h1
      subst h2
      unfold debounceWrites
      rw [hne]
      simp
  | (t', v') :: rest, t, tl, v, vl, hlast, hne => by
      have hlast' : ((t', v') :: rest).getLast? = some (tl, vl) := by
        rw [← hlast, List.getLast?_cons_cons]
      have htail := debounceWrites_last rest t' tl v' vl hlast' hne
      unfold debounceWrites
      by_cases hv : v.isEmpty = true
      · rw [if_pos hv]
        exact htail
      · rw [if_neg hv]
        by_cases hd : t + 500 ≤ t'
        · rw [if_pos hd]
          cases hw : debounceWrites ((t', v') :: rest) with
          | nil => rw [hw] at htail; cases htail
          | cons w ws =>
              rw [hw] at htail
              rw [List.getLast?_cons_cons, htail]
        · rw [if_neg hd]
          exact htail

/-- Claim C6: over any editing session (a non-empty, time-sorted sequence of
value snapshots ending with the last change `(tl, vl)`), a change within
500 ms of the previous one cancels the pending write; if every change arrives
within 500 ms of its predecessor exactly one write is persisted — at
`tl + 500` with the last change's values; in general the final write equals
the last change's values, and consecutive persisted writes are at least
500 ms apart (at most one write per 500 ms of continuous editing). -/
theorem debounce_coalesces (cs : List (Nat × List (String × String)))
    (t tl : Nat) (v vl : List (String × String))
    (hlast : ((t, v) :: cs).getLast? = some (tl, vl))
    (hne : vl.isEmpty = false)
    (hsorted : List.Chain' (fun a b => a.1 ≤ b.1) ((t, v) :: cs)) :
    (List.Chain' (fun a b => b.1 < a.1 + 500) ((t, v) :: cs) →
       debounceWrites ((t, v) :: cs) = [(tl + 500, vl)]) ∧
    (debounceWrites ((t, v) :: cs)).getLast? = some (tl + 500, vl) ∧
    List.Chain' (fun a b => a.1 + 500 ≤ b.1) (debounceWrites ((t, v) :: cs)) :=
  ⟨fun hb => debounceWrites_burst cs t tl v vl hlast hb hne,
   debounceWrites_last cs t tl v vl hlast hne,
   debounceWrites_spacing ((t, v) :: cs) hsorted⟩

/-- Closed witness for `debounce_coalesces`: three changes 100 ms apart
produce exactly one write, holding the last change's value. -/
theorem debounce_coalesces_witness :
    debounceWrites [(0, [("a", "1")]), (100, [("a", "2")]), (200, [("a", "3")])] =
      [(700, [("a", "3")])] :=
  (debounce_coalesces [(100, [("a", "2")]), (200, [("a", "3")])] 0 200
    [("a", "1")] [("a", "3")] (by decide) (by decide)
    (by norm_num [List.chain'_cons, List.chain'_singleton])).1
    (by norm_num [List.chain'_cons, List.chain'_singleton])

/-- A failed login attempt on an unlocked state, with no assumption on the
counter: the counter goes up by one and the lock is set exactly when the new
count reaches the threshold. -/
theorem loginCtx_fail (s : AuthState) (t : Nat) (e : AuthError)
    (hL : s.isLocked = false) :
    (loginCtx s t (Except.error e)).1 =
      if s.failedAttempts + 1 ≥ 5 then
        { s with isLoading := false
                 failedAttempts := s.failedAttempts + 1
                 isLocked := true
                 lockoutUntil := some (t + 900000) }
      else
        { s with isLoading := false
                 failedAttempts := s.failedAttempts + 1
                 isLocked := false
                 lockoutUntil := none } := by
  by_cases hth : s.failedAttempts + 1 ≥ 5
  · simp only [loginCtx, authReducer, hL, Bool.false_eq_true, if_false, if_pos hth]
  · simp only [loginCtx, authReducer, hL, Bool.false_eq_true, if_false, if_neg hth]

/-- The strengthened invariant holds at the initial state. -/
theorem strongInv_init (t : Nat) : StrongInv initialState t := by
  refine ⟨fun hx => absurd hx (by simp [initialState]), fun _ => rfl,
    fun hx => absurd hx (by simp [initialState])⟩

/-- The unlock-timer callback preserves the strengthened invariant as time
moves forward. -/
theorem strongInv_fireUnlockTimer (s : AuthState) (t t' : Nat)
    (h : StrongInv s t) (hle : t ≤ t') : StrongInv (fireUnlockTimer s t') t' := by
  obtain ⟨h1, h2, h3⟩ := h
  unfold fireUnlockTimer
  cases hd : s.lockoutUntil with
  | none =>
      refine ⟨fun hL => ?_, fun _ => hd, h3⟩
      obtain ⟨d, hdd, _⟩ := h1 hL
      rw [hd] at hdd
      cases hdd
  | some d =>
      dsimp only
      by_cases hc : s.isLocked = true ∧ d ≤ t'
      · rw [if_pos hc]
        exact ⟨fun hx => absurd hx (by simp [authReducer]), fun _ => rfl, h3⟩
      · rw [if_neg hc]
        have hL : s.isLocked = true := by
          by_contra hL'
          have hnone := h2 (by simpa using hL')
          rw [hd] at hnone
          cases hnone
        have hd' : ¬d ≤ t' := fun hdle => hc ⟨hL, hdle⟩
        refine ⟨fun _ => ⟨d, hd, by omega⟩, fun hf => ?_, h3⟩
        rw [hL] at hf
        cases hf

/-- Every dispatched operation preserves the strengthened invariant at its
own time. -/
theorem strongInv_applyEvent (s : AuthState) (t' : Nat) (e : AuthEvent)
    (h : StrongInv s t') : StrongInv (applyEvent t' s e) t' := by
  obtain ⟨h1, h2, h3⟩ := h
  cases e with
  | loginAttempt oc =>
      by_cases hL : s.isLocked = true
      · have hguard : (loginCtx s t' oc).1 = s := by simp [loginCtx, hL]
        unfold applyEvent
        dsimp only
        rw [hguard]
        exact ⟨h1, h2, h3⟩
      · have hLf : s.isLocked = false := by simpa using hL
        cases oc with
        | ok u =>
            unfold applyEvent
            dsimp only
            rw [loginCtx_success s t' u hLf]
            exact ⟨fun hx => absurd hx (by simp), fun _ => rfl, fun _ => rfl⟩
        | error err =>
            unfold applyEvent
            dsimp only
            rw [loginCtx_fail s t' err hLf]
            by_cases hth : s.failedAttempts + 1 ≥ 5
            · rw [if_pos hth]
              exact ⟨fun _ => ⟨t' + 900000, rfl, by omega⟩,
                fun hf => absurd hf (by simp), fun ha => h3 ha⟩
            · rw [if_neg hth]
              exact ⟨fun hf => absurd hf (by simp), fun _ => rfl, fun ha => h3 ha⟩
  | registerAttempt oc =>
      cases oc with
      | ok u =>
          unfold applyEvent
          simp only [registerCtx, authReducer]
          exact ⟨fun hx => absurd hx (by simp), fun _ => rfl, fun _ => rfl⟩
      | error err =>
          unfold applyEvent
          simp only [registerCtx, authReducer]
          exact ⟨fun hL => h1 hL, fun hf => h2 hf, fun ha => h3 ha⟩
  | logoutEvent fails =>
      unfold applyEvent
      cases fails <;>
        exact ⟨fun hx => absurd hx (by simp [logoutCtx, authReducer, initialState]),
          fun _ => rfl, fun hx => absurd hx (by simp [logoutCtx, authReducer, initialState])⟩
  | sessionRestore cu =>
      cases cu with
      | some u =>
          unfold applyEvent initializeAuth
          simp only [authReducer]
          exact ⟨fun hL => h1 hL, fun hf => h2 hf, fun _ => rfl⟩
      | none =>
          unfold applyEvent initializeAuth
          simp only [authReducer]
          exact ⟨fun hL => h1 hL, fun hf => h2 hf, fun ha => h3 ha⟩
  | loadingChange b =>
      unfold applyEvent
      simp only [authReducer]
      exact ⟨fun hL => h1 hL, fun hf => h2 hf, fun ha => h3 ha⟩

/-- Claim C3: every `AuthState` reachable by the state machine's operations
(login, register, logout, session restore, loading changes, and the lockout
increment/reset/unlock they dispatch, with the due unlock timer firing under
the single-threaded event loop) satisfies both invariants: `isLocked` holds
iff `lockoutUntil` is present and strictly in the future, and
`isAuthenticated` implies a present `user`. -/
theorem authState_invariants (s : AuthState) (t : Nat) (h : Reachable s t) :
    ((s.isLocked = true) ↔ (∃ d, s.lockoutUntil = some d ∧ t < d)) ∧
    (s.isAuthenticated = true → s.user.isSome = true) := by
  have hs : StrongInv s t := by
    induction h with
    | init t0 => exact strongInv_init t0
    | step t' e hr hle ih =>
        exact strongInv_applyEvent _ t' e (strongInv_fireUnlockTimer _ _ t' ih hle)
    | timer t' hr hle ih => exact strongInv_fireUnlockTimer _ _ t' ih hle
  refine ⟨⟨fun hL => hs.1 hL, ?_⟩, hs.2.2⟩
  rintro ⟨d, hd, _⟩
  by_contra hL
  have hnone := hs.2.1 (by simpa using hL)
  rw [hd] at hnone
  cases hnone

/-- Closed witness for `authState_invariants` at a concrete reachable state:
one failed login attempt at time 5 starting from the initial state. -/
theorem authState_invariants_witness :
    (((applyEvent 5 (fireUnlockTimer initialState 5)
         (AuthEvent.loginAttempt (Except.error AuthError.invalidCredentials))).isLocked = true) ↔
       (∃ d, (applyEvent 5 (fireUnlockTimer initialState 5)
         (AuthEvent.loginAttempt (Except.error AuthError.invalidCredentials))).lockoutUntil
           = some d ∧ 5 < d)) ∧
    ((applyEvent 5 (fireUnlockTimer initialState 5)
        (AuthEvent.loginAttempt (Except.error AuthError.invalidCredentials))).isAuthenticated
          = true →
      (applyEvent 5 (fireUnlockTimer initialState 5)
        (AuthEvent.loginAttempt (Except.error AuthError.invalidCredentials))).user.isSome
          = true) :=
  authState_invariants _ 5
    (Reachable.step 5 (AuthEvent.loginAttempt (Except.error AuthError.invalidCredentials))
      (Reachable.init 0) (by omega))
